import Mathlib

/-! Verification development for the Tech Jargon Buster repository.

The embedding models, from `src/tech_jargon_buster.py`:
  * the keyword list `IT_KEYWORDS` and the classifier `is_it_term`;
  * the main-logic classification branch (`TERM:` override via Python
    `str.replace`, keyword gate, `str.strip`);
  * the three provider connectors `call_github_gpt` (raw `requests` REST
    call) and `call_github_mistral` / `call_grok` (Azure AI Inference SDK
    client), each with its `try/except` boundary that renders any raised
    exception as a provider-named error string;
  * the startup credential check (`os.getenv` with `st.secrets` fallback)
    and the corresponding check of `src/helper_files/model_fetcher.py`.

Python string primitives (`in`, `startswith`, `lower`, `strip`,
`replace("TERM:", "")`) are embedded as executable functions on the
character list of a `String`; `lower`/`strip` are modelled on their ASCII
behaviour, which coincides with Python on every string appearing in the
program and in the claims.  Temperatures are modelled as rationals (the
program only ever compares, clamps with min/max, and forwards them, all of
which are exact).  The network is an oracle: a transport function mapping
the exact request the code builds to an outcome (a raised exception, or a
response), so that theorems quantify over every transport behaviour.
-/

namespace TechJargonBuster

/-- Python `str.lower` (ASCII case mapping, which agrees with Python on all
strings used by the program). -/
def pyLower (s : String) : String := ⟨s.data.map Char.toLower⟩

/-- Characters stripped by Python `str.strip()` (the ASCII whitespace
subset; the inputs in play carry no non-ASCII whitespace). -/
def pyIsSpace (c : Char) : Bool :=
  c == ' ' || c == '\t' || c == '\n' || c == '\r' || c == '\x0b' || c == '\x0c'

/-- Python `str.strip()`: remove leading and trailing whitespace. -/
def pyStrip (s : String) : String :=
  ⟨((s.data.dropWhile pyIsSpace).reverse.dropWhile pyIsSpace).reverse⟩

/-- Contiguous-sublist test on character lists: `listContains hay needle`
is Python `needle in hay`. -/
def listContains (hay needle : List Char) : Bool :=
  match hay with
  | [] => needle.isEmpty
  | _ :: t => needle.isPrefixOf hay || listContains t needle

/-- Python `needle in hay` on strings (substring containment). -/
def pyIn (needle hay : String) : Bool := listContains hay.data needle.data

/-- Python `s.startswith(pre)`. -/
def pyStartswith (s pre : String) : Bool := pre.data.isPrefixOf s.data

/-- Python `s.replace("TERM:", "")` on the character list: remove every
non-overlapping occurrence of `TERM:`, scanning left to right. -/
def stripTermMarkers : List Char → List Char
  | 'T' :: 'E' :: 'R' :: 'M' :: ':' :: rest => stripTermMarkers rest
  | c :: rest => c :: stripTermMarkers rest
  | [] => []

/-- Python `user_input.replace("TERM:", "")` as used by the main logic. -/
def pyReplaceTermMarker (s : String) : String := ⟨stripTermMarkers s.data⟩

/-- The list `IT_KEYWORDS` from `src/tech_jargon_buster.py` lines 96–103, verbatim. -/
def IT_KEYWORDS : List String :=
  ["firewall", "router", "switch", "vpn", "ids", "ips", "siem", "soar", "mfa",
   "sso", "oidc", "saml", "ssl", "tls", "dns", "dhcp", "http", "https", "api",
   "sdk", "json", "xml", "html", "css", "javascript", "python", "java", "c++",
   "docker", "kubernetes", "vmware", "hypervisor", "cloud", "aws", "azure",
   "gcp", "linux", "windows", "unix", "kernel", "sql", "nosql", "mongodb",
   "postgresql", "mysql", "ssh", "ftp", "smtp", "imap", "oauth", "rest"]

/-- Function `is_it_term` from `src/tech_jargon_buster.py` lines 105–108:
lowercase the input and test whether any keyword occurs in it. -/
def is_it_term (term : String) : Bool :=
  IT_KEYWORDS.any (fun word => pyIn word (pyLower term))

/-- Outcome of the classification branch of the main logic
(lines 199–207): either a term to explain, or the warning-and-stop path. -/
inductive ClassifyResult where
  | accepted (term : String)
  | rejected
  deriving DecidableEq

/-- The main-logic classification (lines 199–207): a `TERM:`-prefixed
input bypasses the keyword check and the marker is removed with
`str.replace`; otherwise the keyword gate decides, and an accepted input
is stripped. -/
def classify (user_input : String) : ClassifyResult :=
  if pyStartswith user_input "TERM:" then
    ClassifyResult.accepted (pyStrip (pyReplaceTermMarker user_input))
  else if is_it_term user_input then
    ClassifyResult.accepted (pyStrip user_input)
  else
    ClassifyResult.rejected

/-! The completion gateway

`call_github_gpt` posts a JSON payload with `requests` and extracts
`resp.json()["choices"][0]["message"]["content"].strip()`;
`call_github_mistral` and `call_grok` use the Azure AI Inference SDK
(`client.complete(...)` then `response.choices[0].message.content`).
Each wraps its body in `try/except Exception` and renders any raised
exception `e` as an `"❌ Error calling <provider>: " ++ e` string. -/

/-- A minimal JSON value, enough for the response bodies the code indexes
into (`resp.json()["choices"][0]["message"]["content"]`). -/
inductive Json where
  | null
  | str (s : String)
  | num (n : Int)
  | arr (elems : List Json)
  | obj (fields : List (String × Json))

/-- Python `d[key]` on a parsed JSON value: a `KeyError`/`TypeError`
exception when the key is missing or the value is not an object. -/
def Json.getKey : Json → String → Except String Json
  | Json.obj fields, k =>
    match fields.find? (fun p => p.1 == k) with
    | some p => Except.ok p.2
    | none => Except.error ("KeyError: " ++ k)
  | _, k => Except.error ("TypeError: value is not subscriptable by key " ++ k)

/-- Python `l[i]` on a parsed JSON value: an `IndexError`/`TypeError`
exception when out of range or not a list. -/
def Json.getIdx : Json → Nat → Except String Json
  | Json.arr elems, i =>
    match elems.get? i with
    | some j => Except.ok j
    | none => Except.error "IndexError: list index out of range"
  | _, _ => Except.error "TypeError: value is not a list"

/-- Python `v.strip()` on a JSON value: only a string has `.strip`
(anything else raises `AttributeError`). -/
def Json.asStr : Json → Except String String
  | Json.str s => Except.ok s
  | _ => Except.error "AttributeError: object has no attribute strip"

/-- What `requests.post(...)` can do: raise (network error, timeout), or
return a response with a status code and a body; the body slot is
`Except.error` when `resp.json()` would raise (malformed body). -/
inductive RequestsOutcome where
  | exn (msg : String)
  | response (status : Nat) (body : Except String Json)

/-- Python `resp.raise_for_status()`: raises `HTTPError` exactly for a 4xx or
5xx status code. -/
def raise_for_status (status : Nat) : Except String Unit :=
  if 400 ≤ status ∧ status < 600 then
    Except.error ("HTTPError: " ++ toString status)
  else
    Except.ok ()

/-- The JSON payload built by `call_github_gpt` (lines 119–126): model,
the fixed system/user message pair, and the caller's temperature,
forwarded unchanged. -/
structure GptPayload where
  model : String
  systemContent : String
  userContent : String
  temperature : ℚ
  deriving DecidableEq

def GITHUB_GPT_MODEL : String := "gpt-4.1"

/-- The `payload` dict of `call_github_gpt`, as a function of `term` and
`temperature`. -/
def gpt_payload (term : String) (temperature : ℚ) : GptPayload :=
  { model := GITHUB_GPT_MODEL
    systemContent := "You are an IT jargon explainer. Keep responses beginner-friendly."
    userContent :=
      "Explain the IT jargon term '" ++ term ++ "' in simple language with a real-world analogy."
    temperature := temperature }

/-- The `try`-block of `call_github_gpt` (lines 127–130), with the
network's behaviour on the posted payload supplied as an oracle:
`Except.error e` is an exception raised inside the block. -/
def gpt_try (transport : GptPayload → RequestsOutcome) (term : String) (temperature : ℚ) :
    Except String String :=
  match transport (gpt_payload term temperature) with
  | RequestsOutcome.exn msg => Except.error msg
  | RequestsOutcome.response status body => do
    let _ ← raise_for_status status
    let j ← body
    let choices ← j.getKey "choices"
    let c0 ← choices.getIdx 0
    let message ← c0.getKey "message"
    let content ← message.getKey "content"
    let s ← content.asStr
    pure (pyStrip s)

/-- Function `call_github_gpt` (lines 113–132): the `try` body, with every raised
exception caught and rendered as a provider-named error string. -/
def call_github_gpt (transport : GptPayload → RequestsOutcome) (term : String)
    (temperature : ℚ) : String :=
  match gpt_try transport term temperature with
  | Except.ok s => s
  | Except.error e => "❌ Error calling GitHub Models GPT-4.1: " ++ e

/-- The `message.content` field of one SDK response choice. -/
structure SdkMessageOut where
  content : String
  deriving DecidableEq

/-- One entry of `response.choices`. -/
structure SdkChoice where
  message : SdkMessageOut
  deriving DecidableEq

/-- The keyword arguments passed to `client.complete(...)` by the two
SDK connectors. -/
structure CompleteParams where
  systemContent : String
  userContent : String
  temperature : ℚ
  top_p : ℚ
  max_tokens : Nat
  model : String
  deriving DecidableEq

/-- What `client.complete(...)` can do: raise, or return a response whose
`choices` list the code indexes at 0. -/
inductive SdkOutcome where
  | exn (msg : String)
  | success (choices : List SdkChoice)

/-- The extraction `response.choices[0].message.content`: the extraction both SDK
connectors perform, with `IndexError` when `choices` is empty and the
client's own exception passed through. -/
def sdk_first_content (o : SdkOutcome) : Except String String :=
  match o with
  | SdkOutcome.exn msg => Except.error msg
  | SdkOutcome.success [] => Except.error "IndexError: list index out of range"
  | SdkOutcome.success (c :: _) => Except.ok c.message.content

/-- The `complete(...)` arguments built by `call_github_mistral`
(lines 140–162): temperature clamped to `[0, 1]`
(`min(max(temperature, 0.0), 1.0)`), `top_p=1.0`, `max_tokens=500`. -/
def mistral_params (term : String) (temperature : ℚ) : CompleteParams :=
  let safe_temp := min (max temperature 0) 1
  { systemContent := "You are an IT jargon explainer. Keep responses beginner-friendly."
    userContent := "Explain the IT jargon term '" ++ term ++ "' with real-world analogies."
    temperature := safe_temp
    top_p := 1
    max_tokens := 500
    model := "mistral-ai/mistral-small-2503" }

/-- Function `call_github_mistral` (lines 137–167).  Returns the displayed string
together with whether the `st.info` temperature advisory was emitted
(the `if temperature > 1.0` branch, line 145).  The content is returned
as-is — this connector does not `.strip()` it. -/
def call_github_mistral (transport : CompleteParams → SdkOutcome) (term : String)
    (temperature : ℚ) : String × Bool :=
  let advisory := decide (temperature > 1)
  let result :=
    match sdk_first_content (transport (mistral_params term temperature)) with
    | Except.ok s => s
    | Except.error e => "❌ Error calling GitHub Models Mistral Small 3.1: " ++ e
  (result, advisory)

/-- The `complete(...)` arguments built by `call_grok` (lines 180–189):
no clamp, the caller's temperature is forwarded unchanged. -/
def grok_params (term : String) (temperature : ℚ) : CompleteParams :=
  { systemContent := "You are an IT jargon explainer. Keep responses beginner-friendly."
    userContent := "Explain the IT jargon term '" ++ term ++ "' with examples and analogies."
    temperature := temperature
    top_p := 1
    max_tokens := 500
    model := "xai/grok-3" }

/-- Function `call_grok` (lines 172–194): like the Mistral connector but without
the clamp; content returned as-is, exceptions rendered as an error
string. -/
def call_grok (transport : CompleteParams → SdkOutcome) (term : String)
    (temperature : ℚ) : String :=
  match sdk_first_content (transport (grok_params term temperature)) with
  | Except.ok s => s
  | Except.error e => "❌ Error calling GitHub Models xAI Grok-3: " ++ e

/-! The script run: startup credential check, classification, fan-out -/

/-- The three transports, one per provider connector. -/
structure Transports where
  gpt : GptPayload → RequestsOutcome
  mistral : CompleteParams → SdkOutcome
  grok : CompleteParams → SdkOutcome

/-- The three per-column results the UI layout writes for an accepted
term (lines 215–227): one string per provider, each produced by that
provider's own connector. -/
def provider_results (tr : Transports) (term : String) (temperature : ℚ) : List String :=
  [call_github_gpt tr.gpt term temperature,
   (call_github_mistral tr.mistral term temperature).1,
   call_grok tr.grok term temperature]

/-- The two credential sources consulted at startup (line 42):
`os.getenv("GITHUB_API_KEY")` and `st.secrets.get("GITHUB_API_KEY")`. -/
structure Env where
  getenv_GITHUB_API_KEY : Option String
  secrets_GITHUB_API_KEY : Option String

/-- Line 42: `os.getenv(...) or st.secrets.get(...)` — Python `or` falls
through on a missing value and on a falsy (empty) string. -/
def resolved_api_key (e : Env) : Option String :=
  match e.getenv_GITHUB_API_KEY with
  | some k => if k = "" then e.secrets_GITHUB_API_KEY else some k
  | none => e.secrets_GITHUB_API_KEY

/-- Lines 43–45: `if not GITHUB_API_KEY: st.error(...); st.stop()` —
the script halts when the resolved key is absent or empty. -/
def startup_halts (e : Env) : Bool :=
  match resolved_api_key e with
  | none => true
  | some k => k = ""

def missing_key_message : String :=
  "❌ Missing GITHUB_API_KEY. Please set it in .env (local) or in Streamlit secrets (cloud)."

def rejected_term_warning : String :=
  "⚠️ The term entered is not considered a known IT term. Try again, or override with TERM:. For example:  TERM:FTP"

/-- How one run of the script ends: halted at the startup credential
check (`st.stop` before any widget renders), halted at the
classification warning (`st.stop`, no provider call), or the three
provider explanations. -/
inductive RunResult where
  | configHalt (msg : String)
  | rejectedTerm (warning : String)
  | explained (term : String) (results : List String)
  deriving DecidableEq

/-- One submitted run of `src/tech_jargon_buster.py`: the startup
credential check (lines 42–45), then the classification branch
(lines 199–207), then one connector call per provider (lines 215–227). -/
def run_app (e : Env) (tr : Transports) (user_input : String)
    (slider_temperature : ℚ) : RunResult :=
  if startup_halts e then
    RunResult.configHalt missing_key_message
  else
    match classify user_input with
    | ClassifyResult.rejected => RunResult.rejectedTerm rejected_term_warning
    | ClassifyResult.accepted term =>
        RunResult.explained term (provider_results tr term slider_temperature)

/-- The credential check of `src/helper_files/model_fetcher.py`
(lines 20–24): `os.getenv` only (no secrets fallback); a missing or
empty key raises `ValueError` before any endpoint is contacted. -/
def model_fetcher_check (getenv_GITHUB_API_KEY : Option String) : Except String Unit :=
  match getenv_GITHUB_API_KEY with
  | none =>
      Except.error "❌ Missing GITHUB_API_KEY. Please set it in your .env file or Codespaces secrets."
  | some k =>
      if k = "" then
        Except.error "❌ Missing GITHUB_API_KEY. Please set it in your .env file or Codespaces secrets."
      else Except.ok ()

/-! Theorems settling the claims. -/

/-- Correctness of `listContains`: it decides contiguous-sublist containment,
i.e. Python `needle in hay`. -/
theorem listContains_iff (needle hay : List Char) :
    listContains hay needle = true ↔ needle <:+: hay := by
  induction hay with
  | nil =>
      simp [listContains, List.isEmpty_iff]
  | cons c t ih =>
      simp [listContains, List.infix_cons_iff, ih, List.isPrefixOf_iff_prefix,
        Bool.or_eq_true]

/-- Characterisation of `is_it_term`: it accepts exactly the strings whose lowercasing contains
some keyword as a contiguous substring. -/
theorem is_it_term_iff (s : String) :
    is_it_term s = true ↔ ∃ w ∈ IT_KEYWORDS, w.data <:+: (pyLower s).data := by
  simp [is_it_term, List.any_eq_true, pyIn, listContains_iff]

/-- C2: without the override marker, classification accepts iff the
lowercased input contains some keyword of `IT_KEYWORDS` as a substring,
the accepted term being the stripped original input; `"Explain VPN
tunneling"` is accepted unchanged and `"banana bread recipe"` is
rejected. -/
theorem classifier_keyword_gate :
    (∀ s : String, pyStartswith s "TERM:" = false →
      ((classify s = ClassifyResult.accepted (pyStrip s)) ↔
        ∃ w ∈ IT_KEYWORDS, w.data <:+: (pyLower s).data) ∧
      ((classify s = ClassifyResult.rejected) ↔
        ¬ ∃ w ∈ IT_KEYWORDS, w.data <:+: (pyLower s).data)) ∧
    classify "Explain VPN tunneling" = ClassifyResult.accepted "Explain VPN tunneling" ∧
    classify "banana bread recipe" = ClassifyResult.rejected := by
  refine ⟨?_, by decide, by decide⟩
  intro s hs
  by_cases hit : is_it_term s = true
  · have hacc : classify s = ClassifyResult.accepted (pyStrip s) := by
      simp [classify, hs, hit]
    constructor
    · exact ⟨fun _ => (is_it_term_iff s).mp hit, fun _ => hacc⟩
    · constructor
      · intro h
        rw [hacc] at h
        exact absurd h (by simp)
      · intro h
        exact absurd ((is_it_term_iff s).mp hit) h
  · have hrej : classify s = ClassifyResult.rejected := by
      simp [classify, hs, hit]
    constructor
    · constructor
      · intro h
        rw [hrej] at h
        exact absurd h.symm (by simp)
      · intro h
        exact absurd ((is_it_term_iff s).mpr h) hit
    · exact ⟨fun _ h => hit ((is_it_term_iff s).mpr h), fun _ => hrej⟩

/-- C2 witness: the general gate applied at the concrete accepted
example. -/
theorem classifier_keyword_gate_witness :
    classify "Explain VPN tunneling" = ClassifyResult.accepted (pyStrip "Explain VPN tunneling") :=
  ((classifier_keyword_gate.1 "Explain VPN tunneling" (by decide)).1).mpr
    ⟨"vpn", by decide, "explain ".data, " tunneling".data, by decide⟩

/-- C8: only the exact case-sensitive prefix `TERM:` at position zero is
an override; `"term:ftp"`, `"Term: ftp"` and `" TERM:ssh"` all fall
through to the keyword heuristic (their accepted term keeps the
non-marker text). -/
theorem override_marker_case_sensitive_prefix_only :
    (∀ s : String, pyStartswith s "TERM:" = false →
      classify s = (if is_it_term s then ClassifyResult.accepted (pyStrip s)
                    else ClassifyResult.rejected)) ∧
    pyStartswith "term:ftp" "TERM:" = false ∧
    classify "term:ftp" = ClassifyResult.accepted "term:ftp" ∧
    pyStartswith "Term: ftp" "TERM:" = false ∧
    classify "Term: ftp" = ClassifyResult.accepted "Term: ftp" ∧
    pyStartswith " TERM:ssh" "TERM:" = false ∧
    classify " TERM:ssh" = ClassifyResult.accepted "TERM:ssh" := by
  refine ⟨?_, by decide, by decide, by decide, by decide, by decide, by decide⟩
  intro s hs
  by_cases hit : is_it_term s = true <;> simp [classify, hs, hit]

/-- C8 witness: the general statement applied at `"term:ftp"`. -/
theorem override_marker_case_sensitive_prefix_only_witness :
    classify "term:ftp" = (if is_it_term "term:ftp" then
      ClassifyResult.accepted (pyStrip "term:ftp") else ClassifyResult.rejected) :=
  override_marker_case_sensitive_prefix_only.1 "term:ftp" (by decide)

/-- C3 counterexample: on `"TERM:ssh TERM:ftp"` the code removes *every*
occurrence of the marker (Python `str.replace`), producing `"ssh ftp"`,
not the front-stripped remainder `"ssh TERM:ftp"`. -/
theorem override_front_strip_counterexample :
    classify "TERM:ssh TERM:ftp" = ClassifyResult.accepted "ssh ftp" ∧
    classify "TERM:ssh TERM:ftp" ≠
      ClassifyResult.accepted (pyStrip ⟨"TERM:ssh TERM:ftp".data.drop 5⟩) := by
  constructor
  · decide
  · decide

/-- C3 amended: every input beginning with the override marker is
accepted regardless of content, and the term is the remainder with every
further occurrence of `TERM:` also removed, then trimmed (not merely the
front marker stripped). -/
theorem override_accepts_and_removes_all_markers :
    ∀ rest : List Char,
      pyStartswith ⟨'T' :: 'E' :: 'R' :: 'M' :: ':' :: rest⟩ "TERM:" = true ∧
      classify ⟨'T' :: 'E' :: 'R' :: 'M' :: ':' :: rest⟩ =
        ClassifyResult.accepted (pyStrip ⟨stripTermMarkers rest⟩) := by
  intro rest
  have hdata : "TERM:".data = ['T', 'E', 'R', 'M', ':'] := rfl
  have hpre : pyStartswith ⟨'T' :: 'E' :: 'R' :: 'M' :: ':' :: rest⟩ "TERM:" = true := by
    simp [pyStartswith, hdata, List.isPrefixOf]
  refine ⟨hpre, ?_⟩
  simp [classify, hpre, pyReplaceTermMarker, stripTermMarkers]

/-- A well-formed REST response body:
`{"choices": [{"message": {"content": c}}]}`. -/
def chat_body (c : String) : Json :=
  Json.obj [("choices",
    Json.arr [Json.obj [("message", Json.obj [("content", Json.str c)])]])]

/-- C1: each connector is total over every transport outcome and renders
the two terminal cases exactly: a successful extraction is returned as
the result, and any raised exception `e` is returned as the
provider-naming error string, never propagated. -/
theorem gateway_exceptions_contained :
    ∀ (gt : GptPayload → RequestsOutcome) (mt gk : CompleteParams → SdkOutcome)
      (term : String) (t : ℚ),
      (∀ e, gpt_try gt term t = Except.error e →
        call_github_gpt gt term t = "❌ Error calling GitHub Models GPT-4.1: " ++ e) ∧
      (∀ s, gpt_try gt term t = Except.ok s → call_github_gpt gt term t = s) ∧
      (∀ e, sdk_first_content (mt (mistral_params term t)) = Except.error e →
        (call_github_mistral mt term t).1 =
          "❌ Error calling GitHub Models Mistral Small 3.1: " ++ e) ∧
      (∀ s, sdk_first_content (mt (mistral_params term t)) = Except.ok s →
        (call_github_mistral mt term t).1 = s) ∧
      (∀ e, sdk_first_content (gk (grok_params term t)) = Except.error e →
        call_grok gk term t = "❌ Error calling GitHub Models xAI Grok-3: " ++ e) ∧
      (∀ s, sdk_first_content (gk (grok_params term t)) = Except.ok s →
        call_grok gk term t = s) := by
  intro gt mt gk term t
  refine ⟨?_, ?_, ?_, ?_, ?_, ?_⟩ <;> intro x hx <;>
    simp [call_github_gpt, call_github_mistral, call_grok, hx]

/-- C1 witness: a raised network error at the GPT connector is rendered
as the provider-named error string. -/
theorem gateway_exceptions_contained_witness :
    call_github_gpt (fun _ => RequestsOutcome.exn "ConnectionError: boom") "vpn" (2/5) =
      "❌ Error calling GitHub Models GPT-4.1: ConnectionError: boom" :=
  (gateway_exceptions_contained (fun _ => RequestsOutcome.exn "ConnectionError: boom")
      (fun _ => SdkOutcome.exn "x") (fun _ => SdkOutcome.exn "x") "vpn" (2/5)).1
    "ConnectionError: boom" rfl

/-- C5 counterexample: the Mistral connector does not trim the extracted
content — on a response whose content carries surrounding whitespace it
returns the untrimmed text, not the trimmed one. -/
theorem mistral_returns_untrimmed_counterexample :
    (call_github_mistral (fun _ => SdkOutcome.success [⟨⟨" Connection OK "⟩⟩])
        "vpn" (2/5)).1 = " Connection OK " ∧
    (call_github_mistral (fun _ => SdkOutcome.success [⟨⟨" Connection OK "⟩⟩])
        "vpn" (2/5)).1 ≠ pyStrip " Connection OK " := by
  constructor
  · rfl
  · decide

/-- C5 amended: on a well-formed success the GPT-4.1 connector returns
the first candidate's content trimmed, while the Mistral and Grok
connectors return it unchanged; when the content is `"Connection OK"`
every connector returns exactly `"Connection OK"`. -/
theorem success_extraction :
    ∀ (c term : String) (t : ℚ),
      call_github_gpt (fun _ => RequestsOutcome.response 200 (Except.ok (chat_body c)))
        term t = pyStrip c ∧
      (call_github_mistral (fun _ => SdkOutcome.success [⟨⟨c⟩⟩]) term t).1 = c ∧
      call_grok (fun _ => SdkOutcome.success [⟨⟨c⟩⟩]) term t = c ∧
      call_github_gpt
        (fun _ => RequestsOutcome.response 200 (Except.ok (chat_body "Connection OK")))
        term t = "Connection OK" ∧
      (call_github_mistral (fun _ => SdkOutcome.success [⟨⟨"Connection OK"⟩⟩]) term t).1 =
        "Connection OK" ∧
      call_grok (fun _ => SdkOutcome.success [⟨⟨"Connection OK"⟩⟩]) term t =
        "Connection OK" := by
  intro c term t
  exact ⟨rfl, rfl, rfl, rfl, rfl, rfl⟩

/-- C4: at requested temperature 1.4 the Mistral connector sends
temperature 1.0, emits the `st.info` advisory, and still performs the
call (a successful transport reply at the clamped parameters becomes the
result). -/
theorem mistral_clamps_and_advises_at_one_point_four :
    ∀ (transport : CompleteParams → SdkOutcome) (term : String),
      (mistral_params term (7/5)).temperature = 1 ∧
      (call_github_mistral transport term (7/5)).2 = true ∧
      (∀ s, sdk_first_content (transport (mistral_params term (7/5))) = Except.ok s →
        (call_github_mistral transport term (7/5)).1 = s) := by
  intro transport term
  refine ⟨?_, ?_, ?_⟩
  · show min (max (7/5 : ℚ) 0) 1 = 1
    norm_num
  · show decide ((7/5 : ℚ) > 1) = true
    norm_num
  · intro s hs
    simp [call_github_mistral, hs]

/-- C4 witness: the clamped call at temperature 1.4 with a transport that
answers `"ok"` yields `"ok"`. -/
theorem mistral_clamps_and_advises_at_one_point_four_witness :
    (call_github_mistral (fun _ => SdkOutcome.success [⟨⟨"ok"⟩⟩]) "vpn" (7/5)).1 = "ok" :=
  (mistral_clamps_and_advises_at_one_point_four
      (fun _ => SdkOutcome.success [⟨⟨"ok"⟩⟩]) "vpn").2.2 "ok" rfl

/-- C9: the Mistral advisory is emitted iff the requested temperature is
strictly above 1; a temperature below 0 is clamped to 0 silently (sent
temperature 0, no advisory). -/
theorem mistral_advisory_iff_above_one :
    ∀ (transport : CompleteParams → SdkOutcome) (term : String) (t : ℚ),
      ((call_github_mistral transport term t).2 = true ↔ t > 1) ∧
      (t < 0 → (mistral_params term t).temperature = 0 ∧
        (call_github_mistral transport term t).2 = false) := by
  intro transport term t
  constructor
  · show decide (t > 1) = true ↔ t > 1
    exact decide_eq_true_iff
  · intro ht
    constructor
    · show min (max t 0) 1 = 0
      rw [max_eq_right ht.le]
      exact min_eq_left zero_le_one
    · show decide (t > 1) = false
      rw [decide_eq_false_iff_not]
      intro hgt
      linarith
/-- C9 witness: at requested temperature −1/2 the sent temperature is 0
and no advisory is emitted. -/
theorem mistral_advisory_iff_above_one_witness :
    (mistral_params "vpn" (-(1/2))).temperature = 0 ∧
    (call_github_mistral (fun _ => SdkOutcome.success [⟨⟨"ok"⟩⟩]) "vpn" (-(1/2))).2 = false :=
  (mistral_advisory_iff_above_one (fun _ => SdkOutcome.success [⟨⟨"ok"⟩⟩]) "vpn"
      (-(1/2))).2 (by norm_num)

/-- C10: the GPT-4.1 and Grok connectors have no clamp — the request
they build carries the caller's temperature unchanged throughout the UI
slider range [0, 1.5]. -/
theorem unclamped_temperature_forwarded :
    ∀ (term : String) (t : ℚ), 0 ≤ t → t ≤ 3/2 →
      (gpt_payload term t).temperature = t ∧ (grok_params term t).temperature = t := by
  intro term t h0 h1
  exact ⟨rfl, rfl⟩

/-- C10 witness: at slider value 1.4 both unclamped connectors forward
1.4. -/
theorem unclamped_temperature_forwarded_witness :
    (gpt_payload "vpn" (7/5)).temperature = 7/5 ∧
    (grok_params "vpn" (7/5)).temperature = 7/5 :=
  unclamped_temperature_forwarded "vpn" (7/5) (by norm_num) (by norm_num)

/-- C6: an accepted term yields exactly one result per provider, and
whenever exactly one provider's transport fails while the other two
succeed — whichever of the three it is — the displayed results are that
provider's error string alongside the other two providers' successful
contents, unaltered. -/
theorem providers_independent_one_failure :
    (∀ (tr : Transports) (term : String) (t : ℚ),
      (provider_results tr term t).length = 3) ∧
    (∀ (tr : Transports) (term : String) (t : ℚ) (e s2 s3 : String),
      gpt_try tr.gpt term t = Except.error e →
      sdk_first_content (tr.mistral (mistral_params term t)) = Except.ok s2 →
      sdk_first_content (tr.grok (grok_params term t)) = Except.ok s3 →
      provider_results tr term t =
        ["❌ Error calling GitHub Models GPT-4.1: " ++ e, s2, s3]) ∧
    (∀ (tr : Transports) (term : String) (t : ℚ) (s1 e s3 : String),
      gpt_try tr.gpt term t = Except.ok s1 →
      sdk_first_content (tr.mistral (mistral_params term t)) = Except.error e →
      sdk_first_content (tr.grok (grok_params term t)) = Except.ok s3 →
      provider_results tr term t =
        [s1, "❌ Error calling GitHub Models Mistral Small 3.1: " ++ e, s3]) ∧
    (∀ (tr : Transports) (term : String) (t : ℚ) (s1 s2 e : String),
      gpt_try tr.gpt term t = Except.ok s1 →
      sdk_first_content (tr.mistral (mistral_params term t)) = Except.ok s2 →
      sdk_first_content (tr.grok (grok_params term t)) = Except.error e →
      provider_results tr term t =
        [s1, s2, "❌ Error calling GitHub Models xAI Grok-3: " ++ e]) := by
  refine ⟨fun tr term t => rfl, ?_, ?_, ?_⟩ <;>
    intro tr term t a b c h1 h2 h3 <;>
    simp [provider_results, call_github_gpt, call_github_mistral, call_grok, h1, h2, h3]

/-- C6 witness: a Grok transport pointed at an invalid endpoint fails
alone; the GPT and Mistral results are unaffected. -/
theorem providers_independent_one_failure_witness :
    provider_results
      { gpt := fun _ => RequestsOutcome.response 200 (Except.ok (chat_body "ok1"))
        mistral := fun _ => SdkOutcome.success [⟨⟨"ok2"⟩⟩]
        grok := fun _ => SdkOutcome.exn "ConnectionError: invalid endpoint" }
      "vpn" (2/5) =
      ["ok1", "ok2",
       "❌ Error calling GitHub Models xAI Grok-3: ConnectionError: invalid endpoint"] :=
  providers_independent_one_failure.2.2.2
    { gpt := fun _ => RequestsOutcome.response 200 (Except.ok (chat_body "ok1"))
      mistral := fun _ => SdkOutcome.success [⟨⟨"ok2"⟩⟩]
      grok := fun _ => SdkOutcome.exn "ConnectionError: invalid endpoint" }
    "vpn" (2/5) "ok1" "ok2" "ConnectionError: invalid endpoint" rfl rfl rfl

/-- A concrete all-success transport triple, used to exhibit complete
runs. -/
def demo_transports : Transports :=
  { gpt := fun _ => RequestsOutcome.response 200 (Except.ok (chat_body "ok1"))
    mistral := fun _ => SdkOutcome.success [⟨⟨"ok2"⟩⟩]
    grok := fun _ => SdkOutcome.success [⟨⟨"ok3"⟩⟩] }

/-- C7 counterexample: with `GITHUB_API_KEY` absent from the process
environment but present in Streamlit secrets, the program does not halt —
it proceeds to classify the input and calls all three providers. -/
theorem startup_env_absent_secrets_present_counterexample :
    run_app ⟨none, some "sk-test"⟩ demo_transports "vpn" (2/5) =
      RunResult.explained "vpn" ["ok1", "ok2", "ok3"] ∧
    run_app ⟨none, some "sk-test"⟩ demo_transports "vpn" (2/5) ≠
      RunResult.configHalt missing_key_message := by
  constructor
  · rfl
  · decide

/-- C7 amended: when the credential is absent from (or empty in) both the
process environment and Streamlit secrets, the run halts with the
configuration error; the outcome is independent of every transport and of
the temperature, so no provider call is made; the helper script
`model_fetcher.py`, which reads only the environment, raises its
`ValueError` on a missing key. -/
theorem startup_missing_credential_halts :
    ∀ (e : Env) (tr tr' : Transports) (input : String) (t t' : ℚ),
      startup_halts e = true →
      run_app e tr input t = RunResult.configHalt missing_key_message ∧
      run_app e tr input t = run_app e tr' input t' ∧
      model_fetcher_check none = Except.error
        "❌ Missing GITHUB_API_KEY. Please set it in your .env file or Codespaces secrets." := by
  intro e tr tr' input t t' h
  refine ⟨by simp [run_app, h], by simp [run_app, h], rfl⟩

/-- C7 witness: the fully-missing-credential environment halts the run
with the configuration message. -/
theorem startup_missing_credential_halts_witness :
    run_app ⟨none, none⟩ demo_transports "vpn" (2/5) =
      RunResult.configHalt missing_key_message :=
  (startup_missing_credential_halts ⟨none, none⟩ demo_transports demo_transports
      "vpn" (2/5) (2/5) rfl).1

end TechJargonBuster
